import Mathlib

/-!
Verification development for the SearchService web service
(`src/SearchService/app/routes/fetch.py`, `src/SearchService/app/routes/health.py`).

The Python code is shallowly embedded: strings are Lean `String`/`List Char`,
Python floats are `ℚ` (the timeout logic only uses order and constants),
the outbound HTTP client (`requests.get`) is a parameter
`upstream : String → ℚ → UpstreamResult` describing the behavior of the network,
and the handler is a pure function returning the response body, the outer HTTP
status code, and the list of upstream calls it performed.
-/

namespace SearchService

/-- Python whitespace for `str.strip` and the regex class `\s`
(ASCII range: space, tab, newline, carriage return, vertical tab, form feed). -/
def isPySpace (c : Char) : Bool :=
  c == ' ' || c == '\t' || c == '\n' || c == '\r' || c == '\x0b' || c == '\x0c'

/-- Remove trailing characters satisfying `p` (the tail side of Python `str.strip`). -/
def rstrip (p : Char → Bool) : List Char → List Char
  | [] => []
  | c :: cs =>
    match rstrip p cs with
    | [] => if p c then [] else [c]
    | d :: ds => c :: d :: ds

/-- Python `str.strip()` on a character list: drop leading and trailing whitespace. -/
def pyStrip (l : List Char) : List Char :=
  rstrip isPySpace (l.dropWhile isPySpace)

/-- Python `str.strip()` on a `String`. -/
def pyStripStr (s : String) : String :=
  ⟨pyStrip s.data⟩

/-- Does `hay` start with `needle`? (helper for substring containment). -/
def beginsWith : List Char → List Char → Bool
  | [], _ => true
  | _ :: _, [] => false
  | a :: as, b :: bs => a == b && beginsWith as bs

/-- Python `needle in hay` substring containment on character lists. -/
def containsSub (needle : List Char) : List Char → Bool
  | [] => beginsWith needle []
  | b :: bs => beginsWith needle (b :: bs) || containsSub needle bs

/-- The scheme group `^(https?://)` of `_HTTP_URL_RE` under `re.IGNORECASE`:
if `s` starts (case-insensitively) with `https://` or `http://`, return the rest. -/
def schemeSplit (s : List Char) : Option (List Char) :=
  if List.isPrefixOf "https://".data (s.map Char.toLower) then some (s.drop 8)
  else if List.isPrefixOf "http://".data (s.map Char.toLower) then some (s.drop 7)
  else none

/-- The regex tail `[^\s]*$` of `_HTTP_URL_RE`: a run of non-whitespace
characters after which `$` matches, i.e. the end of the string or a position
just before a final newline (Python `$` semantics without `re.MULTILINE`). -/
def tailMatch : List Char → Bool
  | [] => true
  | [c] => c == '\n' || !isPySpace c
  | c :: c2 :: rest => !isPySpace c && tailMatch (c2 :: rest)

/-- The character class `[^\s/$.?#]` of `_HTTP_URL_RE`. -/
def firstCharOK (c : Char) : Bool :=
  !isPySpace c && !(['/', '$', '.', '?', '#'].contains c)

/-- `re.match` of `_HTTP_URL_RE = ^(https?://)[^\s/$.?#].[^\s]*$` (IGNORECASE):
scheme, one character outside `\s/$.?#`, one character other than newline
(the regex `.`), then `[^\s]*$`. -/
def regexMatch (s : List Char) : Bool :=
  match schemeSplit s with
  | none => false
  | some r =>
    match r with
    | c0 :: c1 :: rest => firstCharOK c0 && c1 != '\n' && tailMatch rest
    | _ => false

/-- `_is_valid_http_url` from fetch.py: strip the input, then match `_HTTP_URL_RE`.
(The `isinstance(url, str)` guard is vacuous here: the embedding types `url` as a string.) -/
def is_valid_http_url (url : String) : Bool :=
  regexMatch (pyStrip url.data)

/-- The `timeout` JSON field as the handler receives it: a number, a value
`float()` fails on, or absent (webargs fills in the default `10.0`). -/
inductive TimeoutArg where
  | absent
  | num (t : ℚ)
  | unparseable
deriving DecidableEq

/-- Lines 60 and 67–72 of fetch.py: `args.get("timeout", 10.0)`, the
`float()` conversion with fallback `10.0`, then `min(max(timeout_val, 1.0), 30.0)`. -/
def resolveTimeout (timeout : TimeoutArg) : ℚ :=
  let t0 : ℚ :=
    match timeout with
    | .absent => 10
    | .num t => t
    | .unparseable => 10
  min (max t0 1) 30

/-- The JSON request body of `POST /fetch` (`fetch_args` schema in fetch.py):
`url` required, `timeout` optional, `as_text` optional with default `true`. -/
structure FetchArgs where
  url : String
  timeout : TimeoutArg := .absent
  as_text : Bool := true
deriving DecidableEq

/-- Outcome of one `requests.get(url, timeout=...)` call: the three exception
classes the handler distinguishes, or a completed response with its status
code, `Content-Type` header (absent header modelled as `""`, matching
`resp.headers.get("Content-Type", "") or ""`), and decoded text body
(`resp.text` after the encoding fallback; `None` folded to `""`). -/
inductive UpstreamResult where
  | timeout (msg : String)
  | requestError (msg : String)
  | otherError (msg : String)
  | response (status : Nat) (contentType : String) (bodyText : String)
deriving DecidableEq

/-- A JSON response body of the fetch endpoint. Every branch of the handler
sets `status` and `message`; the remaining keys appear only in some branches
and are `none` when the branch omits them. -/
structure RespBody where
  status : String
  message : String
  details : Option String := none
  content : Option String := none
  content_type : Option String := none
  url : Option String := none
  http_status : Option Nat := none
deriving DecidableEq

/-- Line 87 of fetch.py: `"text" in ct.lower() or "json" in ct.lower() or
"xml" in ct.lower() or "html" in ct.lower()`. -/
def ctTextLike (ct : String) : Bool :=
  containsSub "text".data (ct.data.map Char.toLower) ||
  containsSub "json".data (ct.data.map Char.toLower) ||
  containsSub "xml".data (ct.data.map Char.toLower) ||
  containsSub "html".data (ct.data.map Char.toLower)

/-- Lines 85–116 of fetch.py: classify a completed upstream response.
`if as_text: if not content_type or (text-like): return 200 success else
return 422 unsupported` and the final 422 for `as_text == False`. -/
def classifyResponse (url : String) (as_text : Bool) (st : Nat) (ct : String)
    (body : String) : RespBody × Nat :=
  if as_text then
    if ct == "" || ctTextLike ct then
      ({ status := "success", message := "Content fetched", content := some body,
         content_type := some ct, url := some url, http_status := some st }, 200)
    else
      ({ status := "error", message := "Unsupported content type for text return",
         details := some ("Received content-type \x27" ++ ct ++ "\x27, which is not text-like."),
         url := some url }, 422)
  else
    ({ status := "error", message := "Binary content return not supported yet",
       details := some "Set as_text=true to receive decoded textual content.",
       url := some url }, 422)

/-- `FetchContent.post` from fetch.py. Returns the pair (JSON body, outer HTTP
status) together with the list of `(url, timeout)` upstream GET calls made
(`requests.get` is called at most once; an empty list means no network call).
The `try/except` around `requests.get` is the `match` on `UpstreamResult`. -/
def fetchPost (args : FetchArgs) (upstream : String → ℚ → UpstreamResult) :
    (RespBody × Nat) × List (String × ℚ) :=
  let url := pyStripStr args.url
  if !(is_valid_http_url url) then
    (({ status := "error", message := "Invalid URL. Only http/https URLs are allowed.",
        details := some "Provide a valid HTTP(S) URL in the \x27url\x27 field." }, 400), [])
  else
    let timeout_val := resolveTimeout args.timeout
    match upstream url timeout_val with
    | .timeout e =>
      (({ status := "error", message := "Request timed out", details := some e }, 408),
        [(url, timeout_val)])
    | .requestError e =>
      (({ status := "error", message := "Upstream fetch failed", details := some e }, 502),
        [(url, timeout_val)])
    | .otherError e =>
      (({ status := "error", message := "Internal server error", details := some e }, 500),
        [(url, timeout_val)])
    | .response st ct body =>
      (classifyResponse url args.as_text st ct body, [(url, timeout_val)])

/-- Body of the health endpoint response. -/
structure HealthBody where
  message : String
deriving DecidableEq

/-- `HealthCheck.get` from health.py: returns the bare dict
`{"message": "Healthy"}`; Flask serializes a bare dict with status 200. -/
def HealthCheck_get : HealthBody × Nat :=
  ({ message := "Healthy" }, 200)

/-! ### Properties of stripping -/

theorem head?_dropWhile_false (p : Char → Bool) (l : List Char) :
    ∀ c, (l.dropWhile p).head? = some c → p c = false := by
  induction l with
  | nil => intro c h; simp [List.dropWhile] at h
  | cons a as ih =>
    intro c h
    rw [List.dropWhile_cons] at h
    by_cases hp : p a
    · exact ih c (by simpa [hp] using h)
    · simp [hp] at h
      subst h
      simpa using hp

theorem dropWhile_eq_self (p : Char → Bool) (l : List Char)
    (h : ∀ c, l.head? = some c → p c = false) : l.dropWhile p = l := by
  cases l with
  | nil => rfl
  | cons a as =>
    have := h a rfl
    simp [List.dropWhile_cons, this]

theorem rstrip_getLast_false (p : Char → Bool) (l : List Char) :
    ∀ c, (rstrip p l).getLast? = some c → p c = false := by
  induction l with
  | nil => intro c h; simp [rstrip] at h
  | cons a as ih =>
    intro c h
    rw [rstrip] at h
    rcases hr : rstrip p as with _ | ⟨d, ds⟩
    · rw [hr] at h
      by_cases hp : p a
      · simp [hp] at h
      · simp [hp] at h
        subst h
        simpa using hp
    · rw [hr] at h
      rw [List.getLast?_cons_cons] at h
      exact ih c (hr ▸ h)

theorem rstrip_head (p : Char → Bool) (l : List Char) :
    rstrip p l = [] ∨ (rstrip p l).head? = l.head? := by
  cases l with
  | nil => exact Or.inl rfl
  | cons a as =>
    rw [rstrip]
    rcases rstrip p as with _ | ⟨d, ds⟩
    · by_cases hp : p a
      · simp [hp]
      · simp [hp]
    · simp

theorem rstrip_eq_self (p : Char → Bool) (l : List Char)
    (h : ∀ c, l.getLast? = some c → p c = false) : rstrip p l = l := by
  induction l with
  | nil => rfl
  | cons a as ih =>
    cases as with
    | nil =>
      have := h a rfl
      simp [rstrip, this]
    | cons b bs =>
      have hys : rstrip p (b :: bs) = b :: bs := by
        apply ih
        intro c hc
        exact h c (by rwa [List.getLast?_cons_cons])
      rw [rstrip, hys]

theorem pyStrip_getLast_false (l : List Char) (c : Char)
    (h : (pyStrip l).getLast? = some c) : isPySpace c = false :=
  rstrip_getLast_false isPySpace (l.dropWhile isPySpace) c h

theorem pyStrip_idem (l : List Char) : pyStrip (pyStrip l) = pyStrip l := by
  unfold pyStrip
  rcases rstrip_head isPySpace (l.dropWhile isPySpace) with h0 | h0
  · rw [h0]
    rfl
  · have hdw : (rstrip isPySpace (l.dropWhile isPySpace)).dropWhile isPySpace
        = rstrip isPySpace (l.dropWhile isPySpace) := by
      apply dropWhile_eq_self
      intro c hc
      exact head?_dropWhile_false isPySpace l c (h0 ▸ hc)
    rw [hdw]
    exact rstrip_eq_self _ _ (rstrip_getLast_false isPySpace _)

theorem is_valid_http_url_strip (s : String) :
    is_valid_http_url (pyStripStr s) = is_valid_http_url s := by
  unfold is_valid_http_url pyStripStr
  rw [show (⟨pyStrip s.data⟩ : String).data = pyStrip s.data from rfl, pyStrip_idem]

/-! ### The regex tail on stripped input -/

theorem getLast?_cons_of_getLast? (a : Char) (l : List Char) (c : Char)
    (h : l.getLast? = some c) : (a :: l).getLast? = some c := by
  cases l with
  | nil => simp at h
  | cons b bs => rwa [List.getLast?_cons_cons]

theorem getLast?_drop_some (n : ℕ) (l : List Char) (c : Char)
    (h : (l.drop n).getLast? = some c) : l.getLast? = some c := by
  induction n generalizing l with
  | zero => exact h
  | succ n ih =>
    cases l with
    | nil => simp at h
    | cons a as => exact getLast?_cons_of_getLast? a as c (ih as (by simpa using h))

theorem tailMatch_eq_all (l : List Char) (h : l.getLast? ≠ some '\n') :
    tailMatch l = l.all (fun c => !isPySpace c) := by
  induction l with
  | nil => rfl
  | cons a as ih =>
    cases as with
    | nil =>
      have ha : (a == '\n') = false := by
        simp only [List.getLast?_singleton, ne_eq, Option.some.injEq] at h
        simpa using h
      simp [tailMatch, ha]
    | cons b bs =>
      have h' : (b :: bs).getLast? ≠ some '\n' := by
        rwa [List.getLast?_cons_cons] at h
      rw [tailMatch, ih h']
      simp

/-! ### Claim C1: URL validation -/

/-- The claimed validation rule, from the claim wording: after trimming,
the url is a scheme (`http://` or `https://`, case-insensitive) followed by a
non-empty remainder that contains no internal whitespace and whose first
character is not one of `/ $ . ? #`. -/
def claimC1Valid (url : String) : Bool :=
  match schemeSplit (pyStrip url.data) with
  | none => false
  | some r =>
    match r with
    | c0 :: rest =>
      !(['/', '$', '.', '?', '#'].contains c0) &&
        (c0 :: rest).all (fun c => !isPySpace c)
    | [] => false

/-- The amended validation rule: after trimming, the url is a scheme
(`http://` or `https://`, case-insensitive) followed by a remainder of at
least two characters whose first character is neither whitespace nor one of
`/ $ . ? #`, whose second character is not a newline, and whose characters
after the second contain no whitespace. -/
def amendedValidURL (url : String) : Bool :=
  match schemeSplit (pyStrip url.data) with
  | none => false
  | some r =>
    match r with
    | c0 :: c1 :: rest =>
      !isPySpace c0 && !(['/', '$', '.', '?', '#'].contains c0) &&
        c1 != '\n' && rest.all (fun c => !isPySpace c)
    | _ => false

theorem schemeSplit_drop (s : List Char) (r : List Char)
    (h : schemeSplit s = some r) : r = s.drop 8 ∨ r = s.drop 7 := by
  unfold schemeSplit at h
  split at h
  · exact Or.inl (Option.some.inj h).symm
  · split at h
    · exact Or.inr (Option.some.inj h).symm
    · exact absurd h (by simp)

/-- Claim C1 as stated is false: `http://a` satisfies all three claimed
conditions but the validator rejects it (the regex needs a remainder of at
least two characters), while `http://a b` has internal whitespace yet the
validator accepts it (the regex `.` also matches a non-newline space). -/
theorem C1_counterexample :
    claimC1Valid "http://a" = true ∧ is_valid_http_url "http://a" = false ∧
    claimC1Valid "http://a b" = false ∧ is_valid_http_url "http://a b" = true := by
  decide

/-- Claim C1 (amended): validation accepts a url if and only if, after
trimming leading/trailing whitespace, it is the scheme `http://` or
`https://` (case-insensitive) followed by at least two characters, of which
the first is neither whitespace nor one of `/ $ . ? #`, the second is not a
newline, and the rest contain no whitespace. -/
theorem C1_valid_iff_amended (url : String) :
    is_valid_http_url url = amendedValidURL url := by
  unfold is_valid_http_url amendedValidURL regexMatch
  rcases hss : schemeSplit (pyStrip url.data) with _ | r
  · rfl
  · rcases r with _ | ⟨c0, _ | ⟨c1, rest⟩⟩
    · rfl
    · rfl
    · have hr : rest.getLast? ≠ some '\n' := by
        intro hlast
        have hs : (pyStrip url.data).getLast? = some '\n' := by
          have hcc : (c0 :: c1 :: rest).getLast? = some '\n' :=
            getLast?_cons_of_getLast? c0 _ '\n'
              (getLast?_cons_of_getLast? c1 rest '\n' hlast)
          rcases schemeSplit_drop _ _ hss with h8 | h7
          · exact getLast?_drop_some 8 _ '\n' (h8 ▸ hcc)
          · exact getLast?_drop_some 7 _ '\n' (h7 ▸ hcc)
        have := pyStrip_getLast_false url.data '\n' hs
        simp [isPySpace] at this
      dsimp only
      rw [tailMatch_eq_all rest hr]
      simp [firstCharOK, Bool.and_assoc]

/-- A concrete accepted input under the amended rule and a concrete rejected
one, instantiating `C1_valid_iff_amended`. -/
theorem C1_valid_iff_amended_witness :
    is_valid_http_url "https://example.com" = amendedValidURL "https://example.com" ∧
    is_valid_http_url "not-a-url" = amendedValidURL "not-a-url" :=
  ⟨C1_valid_iff_amended "https://example.com", C1_valid_iff_amended "not-a-url"⟩

/-! ### Unfolding equations for the handler -/

theorem valid_strip_true (args : FetchArgs) (hv : is_valid_http_url args.url = true) :
    is_valid_http_url (pyStripStr args.url) = true := by
  rw [is_valid_http_url_strip]
  exact hv

theorem fetchPost_invalid_eq (args : FetchArgs) (upstream : String → ℚ → UpstreamResult)
    (hv : is_valid_http_url args.url = false) :
    fetchPost args upstream =
      (({ status := "error", message := "Invalid URL. Only http/https URLs are allowed.",
          details := some "Provide a valid HTTP(S) URL in the \x27url\x27 field." }, 400), []) := by
  have hv' : is_valid_http_url (pyStripStr args.url) = false := by
    rw [is_valid_http_url_strip]
    exact hv
  unfold fetchPost
  simp [hv']

theorem fetchPost_timeout_eq (args : FetchArgs) (upstream : String → ℚ → UpstreamResult)
    (e : String) (hv : is_valid_http_url args.url = true)
    (hup : upstream (pyStripStr args.url) (resolveTimeout args.timeout) = .timeout e) :
    fetchPost args upstream =
      (({ status := "error", message := "Request timed out", details := some e }, 408),
        [(pyStripStr args.url, resolveTimeout args.timeout)]) := by
  unfold fetchPost
  simp [valid_strip_true args hv, hup]

theorem fetchPost_requestError_eq (args : FetchArgs) (upstream : String → ℚ → UpstreamResult)
    (e : String) (hv : is_valid_http_url args.url = true)
    (hup : upstream (pyStripStr args.url) (resolveTimeout args.timeout) = .requestError e) :
    fetchPost args upstream =
      (({ status := "error", message := "Upstream fetch failed", details := some e }, 502),
        [(pyStripStr args.url, resolveTimeout args.timeout)]) := by
  unfold fetchPost
  simp [valid_strip_true args hv, hup]

theorem fetchPost_otherError_eq (args : FetchArgs) (upstream : String → ℚ → UpstreamResult)
    (e : String) (hv : is_valid_http_url args.url = true)
    (hup : upstream (pyStripStr args.url) (resolveTimeout args.timeout) = .otherError e) :
    fetchPost args upstream =
      (({ status := "error", message := "Internal server error", details := some e }, 500),
        [(pyStripStr args.url, resolveTimeout args.timeout)]) := by
  unfold fetchPost
  simp [valid_strip_true args hv, hup]

theorem fetchPost_response_eq (args : FetchArgs) (upstream : String → ℚ → UpstreamResult)
    (st : Nat) (ct body : String) (hv : is_valid_http_url args.url = true)
    (hup : upstream (pyStripStr args.url) (resolveTimeout args.timeout) = .response st ct body) :
    fetchPost args upstream =
      (classifyResponse (pyStripStr args.url) args.as_text st ct body,
        [(pyStripStr args.url, resolveTimeout args.timeout)]) := by
  unfold fetchPost
  simp [valid_strip_true args hv, hup]

/-! ### Claims C2–C4: response classification -/

/-- Claim C2: for every request with a valid url and `as_text` true whose
upstream GET completes with a text-like Content-Type, the outer HTTP status
is 200 whatever the upstream status code is, and the upstream status code is
carried in the `http_status` field of the body. -/
theorem C2_upstream_status_as_data (args : FetchArgs) (upstream : String → ℚ → UpstreamResult)
    (st : Nat) (ct body : String)
    (hv : is_valid_http_url args.url = true)
    (ha : args.as_text = true)
    (hup : upstream (pyStripStr args.url) (resolveTimeout args.timeout) = .response st ct body)
    (hct : (ct == "" || ctTextLike ct) = true) :
    (fetchPost args upstream).1.2 = 200 ∧
    (fetchPost args upstream).1.1.http_status = some st := by
  rw [fetchPost_response_eq args upstream st ct body hv hup]
  simp [classifyResponse, ha, hct]

/-- Instance of `C2_upstream_status_as_data` with an upstream 404. -/
theorem C2_witness :
    (fetchPost { url := "https://example.com" }
        (fun _ _ => .response 404 "text/html" "not found")).1.2 = 200 ∧
    (fetchPost { url := "https://example.com" }
        (fun _ _ => .response 404 "text/html" "not found")).1.1.http_status = some 404 :=
  C2_upstream_status_as_data _ _ 404 "text/html" "not found" (by decide) rfl rfl (by decide)

/-- Claim C3: with a valid url and `as_text` true, a completed upstream
response is classified by its Content-Type: empty/absent or containing
`text`, `json`, `xml` or `html` (case-insensitively) gives the 200 success
body carrying the decoded body, the Content-Type, the url and the upstream
status; anything else gives the 422 body whose details name the rejected
content-type and which carries the url. -/
theorem C3_content_type_classification (args : FetchArgs)
    (upstream : String → ℚ → UpstreamResult) (st : Nat) (ct body : String)
    (hv : is_valid_http_url args.url = true)
    (ha : args.as_text = true)
    (hup : upstream (pyStripStr args.url) (resolveTimeout args.timeout) = .response st ct body) :
    ((ct == "" || ctTextLike ct) = true →
      (fetchPost args upstream).1 =
        ({ status := "success", message := "Content fetched", content := some body,
           content_type := some ct, url := some (pyStripStr args.url),
           http_status := some st }, 200)) ∧
    ((ct == "" || ctTextLike ct) = false →
      (fetchPost args upstream).1 =
        ({ status := "error", message := "Unsupported content type for text return",
           details := some ("Received content-type \x27" ++ ct ++ "\x27, which is not text-like."),
           url := some (pyStripStr args.url) }, 422)) := by
  rw [fetchPost_response_eq args upstream st ct body hv hup]
  constructor <;> intro hct <;> simp [classifyResponse, ha, hct]

/-- Instances of `C3_content_type_classification`: a `text/html` response is
returned as success, an `image/png` response is rejected with 422. -/
theorem C3_witness :
    (fetchPost { url := "https://example.com" }
        (fun _ _ => .response 200 "text/html; charset=UTF-8" "<html>ok</html>")).1 =
      ({ status := "success", message := "Content fetched", content := some "<html>ok</html>",
         content_type := some "text/html; charset=UTF-8", url := some "https://example.com",
         http_status := some 200 }, 200) ∧
    (fetchPost { url := "https://example.com/img.png" }
        (fun _ _ => .response 200 "image/png" "PNG")).1 =
      ({ status := "error", message := "Unsupported content type for text return",
         details := some "Received content-type \x27image/png\x27, which is not text-like.",
         url := some "https://example.com/img.png" }, 422) :=
  ⟨(C3_content_type_classification _ _ 200 "text/html; charset=UTF-8" "<html>ok</html>"
      (by decide) rfl rfl).1 (by decide),
   (C3_content_type_classification _ _ 200 "image/png" "PNG"
      (by decide) rfl rfl).2 (by decide)⟩

/-- Claim C4 as stated is false: with `as_text` false and a valid url, an
upstream timeout is reported as 408 `Timeout`, not as 422 `BinaryNotSupported`
(the fetch and its exception handling run before the `as_text` check). -/
theorem C4_counterexample :
    (fetchPost { url := "http://example.com", as_text := false }
        (fun _ _ => UpstreamResult.timeout "upstream hang")).1.2 = 408 ∧
    (fetchPost { url := "http://example.com", as_text := false }
        (fun _ _ => UpstreamResult.timeout "upstream hang")).1.2 ≠ 422 := by
  decide

/-- Claim C4 (amended): for every request with a valid url and `as_text`
false whose upstream GET completes (with any status, content-type and body),
the response is the 422 `BinaryNotSupported` body; when the fetch raises a
timeout or a connection error the error branches (408/502/500) take
precedence instead. -/
theorem C4_binary_not_supported (args : FetchArgs) (upstream : String → ℚ → UpstreamResult)
    (st : Nat) (ct body : String)
    (hv : is_valid_http_url args.url = true)
    (ha : args.as_text = false)
    (hup : upstream (pyStripStr args.url) (resolveTimeout args.timeout) = .response st ct body) :
    (fetchPost args upstream).1 =
      ({ status := "error", message := "Binary content return not supported yet",
         details := some "Set as_text=true to receive decoded textual content.",
         url := some (pyStripStr args.url) }, 422) := by
  rw [fetchPost_response_eq args upstream st ct body hv hup]
  simp [classifyResponse, ha]

/-- Instance of `C4_binary_not_supported` with a completed binary response. -/
theorem C4_witness :
    (fetchPost { url := "http://example.com", as_text := false }
        (fun _ _ => .response 200 "image/png" "PNG")).1 =
      ({ status := "error", message := "Binary content return not supported yet",
         details := some "Set as_text=true to receive decoded textual content.",
         url := some "http://example.com" }, 422) :=
  C4_binary_not_supported _ _ 200 "image/png" "PNG" (by decide) rfl rfl

/-! ### Claim C5: timeout resolution -/

/-- Claim C5: a numeric `timeout` value t resolves to `min(max(t,1),30)`, a
missing or unparseable value resolves to 10, and the resolved value is the
one passed to the single upstream GET call. -/
theorem C5_timeout_resolution (t : ℚ) (args : FetchArgs)
    (upstream : String → ℚ → UpstreamResult)
    (hv : is_valid_http_url args.url = true) :
    resolveTimeout (.num t) = min (max t 1) 30 ∧
    resolveTimeout .absent = 10 ∧
    resolveTimeout .unparseable = 10 ∧
    (fetchPost args upstream).2 = [(pyStripStr args.url, resolveTimeout args.timeout)] := by
  refine ⟨rfl, rfl, rfl, ?_⟩
  rcases hup : upstream (pyStripStr args.url) (resolveTimeout args.timeout)
    with e | e | e | ⟨st, ct, body⟩
  · rw [fetchPost_timeout_eq args upstream e hv hup]
  · rw [fetchPost_requestError_eq args upstream e hv hup]
  · rw [fetchPost_otherError_eq args upstream e hv hup]
  · rw [fetchPost_response_eq args upstream st ct body hv hup]

/-- Instances of `C5_timeout_resolution`: 0 resolves to 1, 1000 to 30, 5 to
5, absent and unparseable to 10, and the fetch is performed with the
resolved value. -/
theorem C5_witness :
    resolveTimeout (.num 0) = 1 ∧ resolveTimeout (.num 1000) = 30 ∧
    resolveTimeout (.num 5) = 5 ∧ resolveTimeout .absent = 10 ∧
    resolveTimeout .unparseable = 10 ∧
    (fetchPost { url := "https://example.com", timeout := .num 5 }
        (fun _ _ => .response 200 "" "")).2 = [("https://example.com", 5)] :=
  ⟨(C5_timeout_resolution 0 { url := "https://example.com" }
      (fun _ _ => .response 200 "" "") (by decide)).1,
   (C5_timeout_resolution 1000 { url := "https://example.com" }
      (fun _ _ => .response 200 "" "") (by decide)).1,
   (C5_timeout_resolution 5 { url := "https://example.com" }
      (fun _ _ => .response 200 "" "") (by decide)).1,
   rfl, rfl,
   (C5_timeout_resolution 5 { url := "https://example.com", timeout := .num 5 }
      (fun _ _ => .response 200 "" "") (by decide)).2.2.2⟩

/-! ### Claim C6: fetch failure classification -/

/-- Claim C6: with a valid url, a fetch failure is classified exhaustively:
a network timeout gives 408 `Request timed out`, any other request exception
gives 502 `Upstream fetch failed`, any other failure gives 500
`Internal server error`, each carrying the underlying error description in
`details` (the handler is a total function: nothing propagates uncaught). -/
theorem C6_error_classification (args : FetchArgs) (upstream : String → ℚ → UpstreamResult)
    (msg : String) (hv : is_valid_http_url args.url = true) :
    (upstream (pyStripStr args.url) (resolveTimeout args.timeout) = .timeout msg →
      (fetchPost args upstream).1 =
        ({ status := "error", message := "Request timed out", details := some msg }, 408)) ∧
    (upstream (pyStripStr args.url) (resolveTimeout args.timeout) = .requestError msg →
      (fetchPost args upstream).1 =
        ({ status := "error", message := "Upstream fetch failed", details := some msg }, 502)) ∧
    (upstream (pyStripStr args.url) (resolveTimeout args.timeout) = .otherError msg →
      (fetchPost args upstream).1 =
        ({ status := "error", message := "Internal server error", details := some msg }, 500)) := by
  refine ⟨fun hup => ?_, fun hup => ?_, fun hup => ?_⟩
  · rw [fetchPost_timeout_eq args upstream msg hv hup]
  · rw [fetchPost_requestError_eq args upstream msg hv hup]
  · rw [fetchPost_otherError_eq args upstream msg hv hup]

/-- Instance of `C6_error_classification`: a connection failure maps to 502
with the error description in `details`. -/
theorem C6_witness :
    (fetchPost { url := "https://example.com" }
        (fun _ _ => .requestError "connection refused")).1 =
      ({ status := "error", message := "Upstream fetch failed",
         details := some "connection refused" }, 502) :=
  (C6_error_classification _ _ "connection refused" (by decide)).2.1 rfl

/-! ### Claim C7: invalid url short-circuits -/

/-- Claim C7: when the url fails validation the handler answers 400 with the
exact message `Invalid URL. Only http/https URLs are allowed.`, and the
upstream call list is empty — the network fetch is never performed, whatever
the upstream behavior would have been. -/
theorem C7_invalid_request (args : FetchArgs) (upstream : String → ℚ → UpstreamResult)
    (hv : is_valid_http_url args.url = false) :
    fetchPost args upstream =
      (({ status := "error", message := "Invalid URL. Only http/https URLs are allowed.",
          details := some "Provide a valid HTTP(S) URL in the \x27url\x27 field." }, 400), []) :=
  fetchPost_invalid_eq args upstream hv

/-- Instance of `C7_invalid_request` at `url="not-a-url"`. -/
theorem C7_witness :
    fetchPost { url := "not-a-url" } (fun _ _ => .response 200 "text/html" "x") =
      (({ status := "error", message := "Invalid URL. Only http/https URLs are allowed.",
          details := some "Provide a valid HTTP(S) URL in the \x27url\x27 field." }, 400), []) :=
  C7_invalid_request { url := "not-a-url" } (fun _ _ => .response 200 "text/html" "x") (by decide)

/-! ### Claim C8: determinism of the outcome category -/

/-- The category of an upstream outcome: which exception was raised, or the
status code and Content-Type of the completed response (its body text is not
part of the category). -/
inductive UpCat where
  | timeoutC
  | requestErrorC
  | otherErrorC
  | responseC (status : Nat) (contentType : String)
deriving DecidableEq

/-- Category of an `UpstreamResult`. -/
def upCat : UpstreamResult → UpCat
  | .timeout _ => .timeoutC
  | .requestError _ => .requestErrorC
  | .otherError _ => .otherErrorC
  | .response st ct _ => .responseC st ct

theorem classifyResponse_body_independent (url : String) (as_text : Bool) (st : Nat)
    (ct b₁ b₂ : String) :
    (classifyResponse url as_text st ct b₁).2 = (classifyResponse url as_text st ct b₂).2 ∧
    (classifyResponse url as_text st ct b₁).1.status = (classifyResponse url as_text st ct b₂).1.status ∧
    (classifyResponse url as_text st ct b₁).1.message = (classifyResponse url as_text st ct b₂).1.message := by
  unfold classifyResponse
  by_cases ha : as_text <;> by_cases hc : (ct == "" || ctTextLike ct) = true <;> simp [ha, hc]

/-- Claim C8: the handler keeps no state across requests; evaluating the
same request against two upstream behaviors of the same category (same
exception kind, or same status code and Content-Type — content may differ)
yields the same outer status code, the same `status` value and the same
`message`: the outcome category depends only on the request and the
upstream's behavior. -/
theorem C8_outcome_deterministic (args : FetchArgs)
    (up₁ up₂ : String → ℚ → UpstreamResult)
    (h : ∀ u t, upCat (up₁ u t) = upCat (up₂ u t)) :
    (fetchPost args up₁).1.2 = (fetchPost args up₂).1.2 ∧
    (fetchPost args up₁).1.1.status = (fetchPost args up₂).1.1.status ∧
    (fetchPost args up₁).1.1.message = (fetchPost args up₂).1.1.message := by
  by_cases hv : is_valid_http_url args.url = true
  · have hc := h (pyStripStr args.url) (resolveTimeout args.timeout)
    rcases h1 : up₁ (pyStripStr args.url) (resolveTimeout args.timeout)
      with e1 | e1 | e1 | ⟨st1, ct1, b1⟩ <;>
    rcases h2 : up₂ (pyStripStr args.url) (resolveTimeout args.timeout)
      with e2 | e2 | e2 | ⟨st2, ct2, b2⟩ <;>
    rw [h1, h2] at hc <;>
    simp only [upCat, UpCat.responseC.injEq] at hc
    all_goals try exact UpCat.noConfusion hc
    · rw [fetchPost_timeout_eq args up₁ e1 hv h1, fetchPost_timeout_eq args up₂ e2 hv h2]
      exact ⟨rfl, rfl, rfl⟩
    · rw [fetchPost_requestError_eq args up₁ e1 hv h1,
        fetchPost_requestError_eq args up₂ e2 hv h2]
      exact ⟨rfl, rfl, rfl⟩
    · rw [fetchPost_otherError_eq args up₁ e1 hv h1, fetchPost_otherError_eq args up₂ e2 hv h2]
      exact ⟨rfl, rfl, rfl⟩
    · obtain ⟨rfl, rfl⟩ := hc
      rw [fetchPost_response_eq args up₁ st1 ct1 b1 hv h1,
        fetchPost_response_eq args up₂ st1 ct1 b2 hv h2]
      exact classifyResponse_body_independent (pyStripStr args.url) args.as_text st1 ct1 b1 b2
  · have hv' : is_valid_http_url args.url = false := by
      simpa using hv
    rw [fetchPost_invalid_eq args up₁ hv', fetchPost_invalid_eq args up₂ hv']
    exact ⟨rfl, rfl, rfl⟩

/-- Instance of `C8_outcome_deterministic`: two upstreams returning the same
status and Content-Type but different content give the same outcome. -/
theorem C8_witness :
    (fetchPost { url := "https://example.com" }
        (fun _ _ => .response 200 "text/html" "version one")).1.2 =
      (fetchPost { url := "https://example.com" }
        (fun _ _ => .response 200 "text/html" "version two")).1.2 ∧
    (fetchPost { url := "https://example.com" }
        (fun _ _ => .response 200 "text/html" "version one")).1.1.status =
      (fetchPost { url := "https://example.com" }
        (fun _ _ => .response 200 "text/html" "version two")).1.1.status ∧
    (fetchPost { url := "https://example.com" }
        (fun _ _ => .response 200 "text/html" "version one")).1.1.message =
      (fetchPost { url := "https://example.com" }
        (fun _ _ => .response 200 "text/html" "version two")).1.1.message :=
  C8_outcome_deterministic { url := "https://example.com" }
    (fun _ _ => .response 200 "text/html" "version one")
    (fun _ _ => .response 200 "text/html" "version two")
    (fun _ _ => rfl)

/-! ### Claim C9: the health endpoint -/

/-- Claim C9: `GET /` always answers 200 with exactly the body
`{"message": "Healthy"}` — `HealthCheck_get` is a constant, so it takes no
input, has no error branch and performs no effect. -/
theorem C9_health_constant :
    HealthCheck_get = ({ message := "Healthy" }, 200) := rfl

/-! ### Claim C10: shape of every response -/

/-- Claim C10: for every request and every upstream behavior the handler
returns exactly one response; its outer status is one of 200, 400, 408, 422,
502, 500; the body's `status` is `success` exactly when the outer status is
200; and every error body carries a non-empty `message` and a `details`
string. -/
theorem C10_response_invariant (args : FetchArgs) (upstream : String → ℚ → UpstreamResult) :
    ((fetchPost args upstream).1.2 = 200 ∨ (fetchPost args upstream).1.2 = 400 ∨
     (fetchPost args upstream).1.2 = 408 ∨ (fetchPost args upstream).1.2 = 422 ∨
     (fetchPost args upstream).1.2 = 502 ∨ (fetchPost args upstream).1.2 = 500) ∧
    ((fetchPost args upstream).1.2 = 200 ↔ (fetchPost args upstream).1.1.status = "success") ∧
    ((fetchPost args upstream).1.2 ≠ 200 →
      (fetchPost args upstream).1.1.status = "error" ∧
      (fetchPost args upstream).1.1.message ≠ "" ∧
      (fetchPost args upstream).1.1.details.isSome = true) := by
  by_cases hv : is_valid_http_url args.url = true
  · rcases hup : upstream (pyStripStr args.url) (resolveTimeout args.timeout)
      with e | e | e | ⟨st, ct, body⟩
    · rw [fetchPost_timeout_eq args upstream e hv hup]
      simp
    · rw [fetchPost_requestError_eq args upstream e hv hup]
      simp
    · rw [fetchPost_otherError_eq args upstream e hv hup]
      simp
    · rw [fetchPost_response_eq args upstream st ct body hv hup]
      unfold classifyResponse
      by_cases ha : args.as_text <;> by_cases hc : (ct == "" || ctTextLike ct) = true <;>
        simp [ha, hc]
  · have hv' : is_valid_http_url args.url = false := by
      simpa using hv
    rw [fetchPost_invalid_eq args upstream hv']
    simp

end SearchService
